import Mathlib

/-!
Verification of the wanwatcher detection-and-dispatch pipeline.

This file gives a shallow embedding of the core logic of the repository
(src/wanwatcher_docker.py and src/notifications.py) and proves the
behavioural properties stated in the specification:

* change classification (check_ip, lines 520-556 of wanwatcher_docker.py);
* state loading and saving (get_previous_ips / save_current_ips);
* retry with exponential backoff (retry_with_backoff in notifications.py);
* the multi-channel dispatcher (NotificationManager.send_to_all) and the
  error path (NotificationManager.notify_error);
* the update checker (parse_version / check_for_updates);
* the IPv6 eligibility check (is_valid_ipv6), together with a model of the
  CPython ipaddress predicates it calls.

Python Optional[str] values are modelled as Option String; Python
exceptions are modelled by Except or by totalising the function exactly
where the source catches them.  Machine integers do not occur (Python
integers are unbounded), so Nat / Int are exact.
-/

namespace WanWatcher

/-- An address snapshot: Python dict \x7b"ipv4": Optional[str], "ipv6": Optional[str]\x7d. -/
structure AddressPair where
  ipv4 : Option String
  ipv6 : Option String
deriving DecidableEq, Repr

/-- The classification outcomes named in the specification (section 4.3). -/
inductive ChangeKind where
  | FirstRun
  | Ipv4Changed
  | Ipv6Changed
  | BothChanged
  | Unchanged
deriving DecidableEq, Repr

/-- Classification as performed by check_ip (wanwatcher_docker.py lines 522-556):
is_first_run is previous.ipv4 is None and previous.ipv6 is None; the changed
flags are exact inequality tests; the first-run branch is taken first, then the
change branch (which appends one message per set flag, so both flags set is the
both-changed outcome), else the unchanged branch. -/
def classify_code (current previous : AddressPair) : ChangeKind :=
  let is_first_run := previous.ipv4.isNone && previous.ipv6.isNone
  let ipv4_changed := current.ipv4 != previous.ipv4
  let ipv6_changed := current.ipv6 != previous.ipv6
  if is_first_run then ChangeKind.FirstRun
  else if ipv4_changed || ipv6_changed then
    if ipv4_changed && ipv6_changed then ChangeKind.BothChanged
    else if ipv4_changed then ChangeKind.Ipv4Changed
    else ChangeKind.Ipv6Changed
  else ChangeKind.Unchanged

/-- Reference classification, written from the words of the specification
(section 4.3): FirstRun iff both previous fields are null; otherwise the two
null-aware changed flags decide between BothChanged, Ipv4Changed, Ipv6Changed
and Unchanged. -/
def classify_spec (current previous : AddressPair) : ChangeKind :=
  if previous.ipv4 = none ∧ previous.ipv6 = none then ChangeKind.FirstRun
  else
    let ipv4_changed := current.ipv4 ≠ previous.ipv4
    let ipv6_changed := current.ipv6 ≠ previous.ipv6
    if ipv4_changed ∧ ipv6_changed then ChangeKind.BothChanged
    else if ipv4_changed ∧ ¬ ipv6_changed then ChangeKind.Ipv4Changed
    else if ¬ ipv4_changed ∧ ipv6_changed then ChangeKind.Ipv6Changed
    else ChangeKind.Unchanged

/-- C1: the classification computed by check_ip agrees with the reference
definition of the specification on every pair of address pairs, and FirstRun
is produced exactly when both stored fields are null. -/
theorem classify_code_eq_spec (current previous : AddressPair) :
    classify_code current previous = classify_spec current previous ∧
    (classify_code current previous = ChangeKind.FirstRun ↔
      previous.ipv4 = none ∧ previous.ipv6 = none) := by
  constructor
  · by_cases h1 : previous.ipv4 = none <;>
    by_cases h2 : previous.ipv6 = none <;>
    by_cases h4 : current.ipv4 = previous.ipv4 <;>
    by_cases h6 : current.ipv6 = previous.ipv6 <;>
      simp_all [classify_code, classify_spec, Option.isNone_iff_eq_none, bne_iff_ne]
  · by_cases h1 : previous.ipv4 = none <;>
    by_cases h2 : previous.ipv6 = none <;>
    by_cases h4 : current.ipv4 = previous.ipv4 <;>
    by_cases h6 : current.ipv6 = previous.ipv6 <;>
      simp_all [classify_code, Option.isNone_iff_eq_none, bne_iff_ne]


/-!
Retry with exponential backoff (notifications.py lines 22-54).

The operation under retry is modelled as a function from the attempt index
to the outcome of that invocation: Except.error means the Python call raised,
Except.ok b means it returned the boolean b.  The result of a run records the
returned boolean, the number of invocations actually made, and the list of
sleep durations (in seconds, as exact rationals) in the order they happened.
-/

/-- One run of the retry loop of retry_with_backoff, with the number of loop
iterations still available (including the current one) as fuel, starting at
the given attempt index.  Mirrors the Python for-loop over range(max_retries):
a true result returns at once; a returned False sleeps
base_delay * 2 ^ attempt and continues unless this was the last iteration
(in which case the loop ends and False is returned after it); a raised
exception does the same, except that on the last iteration it returns False
from inside the handler. -/
def retryGo (f : Nat → Except Unit Bool) (base_delay : ℚ) :
    Nat → Nat → Bool × Nat × List ℚ
  | 0, _ => (false, 0, [])
  | 1, attempt =>
    match f attempt with
    | Except.ok true => (true, 1, [])
    | Except.ok false => (false, 1, [])
    | Except.error _ => (false, 1, [])
  | r + 2, attempt =>
    match f attempt with
    | Except.ok true => (true, 1, [])
    | Except.ok false =>
      let rest := retryGo f base_delay (r + 1) (attempt + 1)
      (rest.1, rest.2.1 + 1, base_delay * 2 ^ attempt :: rest.2.2)
    | Except.error _ =>
      let rest := retryGo f base_delay (r + 1) (attempt + 1)
      (rest.1, rest.2.1 + 1, base_delay * 2 ^ attempt :: rest.2.2)

/-- retry_with_backoff(func, max_retries, base_delay) from notifications.py:
runs the attempt loop from attempt 0 with max_retries iterations available. -/
def retry_with_backoff (f : Nat → Except Unit Bool) (max_retries : Nat)
    (base_delay : ℚ) : Bool × Nat × List ℚ :=
  retryGo f base_delay max_retries 0

lemma retryGo_one (f : Nat → Except Unit Bool) (b : ℚ) (a : Nat) :
    retryGo f b 1 a =
      match f a with
      | Except.ok true => (true, 1, [])
      | Except.ok false => (false, 1, [])
      | Except.error _ => (false, 1, []) := rfl

lemma retryGo_two (f : Nat → Except Unit Bool) (b : ℚ) (r a : Nat) :
    retryGo f b (r + 2) a =
      match f a with
      | Except.ok true => (true, 1, [])
      | Except.ok false =>
        ((retryGo f b (r + 1) (a + 1)).1, (retryGo f b (r + 1) (a + 1)).2.1 + 1,
          b * 2 ^ a :: (retryGo f b (r + 1) (a + 1)).2.2)
      | Except.error _ =>
        ((retryGo f b (r + 1) (a + 1)).1, (retryGo f b (r + 1) (a + 1)).2.1 + 1,
          b * 2 ^ a :: (retryGo f b (r + 1) (a + 1)).2.2) := rfl

lemma retryGo_invocations_le (f : Nat → Except Unit Bool) (b : ℚ) :
    ∀ rem attempt, (retryGo f b rem attempt).2.1 ≤ rem := by
  intro rem
  induction rem using Nat.strong_induction_on with
  | _ rem ih =>
    rcases rem with _ | (_ | r)
    · intro attempt; simp [retryGo]
    · intro attempt
      rw [retryGo_one]
      cases hf : f attempt with
      | error e => simp
      | ok v => cases v <;> simp
    · intro attempt
      rw [retryGo_two]
      have h := ih (r + 1) (by omega) (attempt + 1)
      cases hf : f attempt with
      | error e => simpa using Nat.succ_le_succ h
      | ok v =>
        cases v
        · simpa using Nat.succ_le_succ h
        · simp

lemma cons_pow_map (b : ℚ) (a n : Nat) :
    b * 2 ^ a :: (List.range n).map (fun j => b * 2 ^ (a + 1 + j)) =
      (List.range (n + 1)).map (fun j => b * 2 ^ (a + j)) := by
  rw [List.range_succ_eq_map, List.map_cons, List.map_map]
  refine congrArg₂ List.cons (by norm_num) ?_
  apply List.map_congr_left
  intro j _
  have hj : a + 1 + j = a + (j + 1) := by omega
  simp [Function.comp_def, hj, Nat.succ_eq_add_one]

lemma retryGo_success (f : Nat → Except Unit Bool) (b : ℚ) :
    ∀ rem attempt i, i < rem →
      (∀ j, j < i → f (attempt + j) ≠ Except.ok true) →
      f (attempt + i) = Except.ok true →
      retryGo f b rem attempt =
        (true, i + 1, (List.range i).map (fun j => b * 2 ^ (attempt + j))) := by
  intro rem
  induction rem using Nat.strong_induction_on with
  | _ rem ih =>
    rcases rem with _ | (_ | r)
    · intro attempt i hi; omega
    · intro attempt i hi hfail hok
      have hi0 : i = 0 := by omega
      subst hi0
      simp only [Nat.add_zero] at hok
      rw [retryGo_one, hok]
      simp
    · intro attempt i hi hfail hok
      rcases i with _ | i'
      · simp only [Nat.add_zero] at hok
        rw [retryGo_two, hok]
        simp
      · have hf0 : f attempt ≠ Except.ok true := by
          have h := hfail 0 (Nat.succ_pos i')
          simpa using h
        have hrec := ih (r + 1) (by omega) (attempt + 1) i' (by omega)
          (fun j hj => by
            have h := hfail (j + 1) (by omega)
            simpa [Nat.add_assoc, Nat.add_comm 1 j] using h)
          (by
            have heq : attempt + 1 + i' = attempt + (i' + 1) := by omega
            rw [heq]; exact hok)
        rw [retryGo_two]
        cases hf : f attempt with
        | error e => rw [hrec, cons_pow_map]
        | ok v =>
          cases v
          · rw [hrec, cons_pow_map]
          · exact absurd hf hf0

lemma retryGo_all_fail (f : Nat → Except Unit Bool) (b : ℚ) :
    ∀ rem attempt, (∀ i, i < rem → f (attempt + i) ≠ Except.ok true) →
      retryGo f b rem attempt =
        (false, rem, (List.range (rem - 1)).map (fun j => b * 2 ^ (attempt + j))) := by
  intro rem
  induction rem using Nat.strong_induction_on with
  | _ rem ih =>
    rcases rem with _ | (_ | r)
    · intro attempt _; simp [retryGo]
    · intro attempt hfail
      have hf0 : f attempt ≠ Except.ok true := by
        have h := hfail 0 Nat.one_pos
        simpa using h
      rw [retryGo_one]
      cases hf : f attempt with
      | error e => simp
      | ok v =>
        cases v
        · simp
        · exact absurd hf hf0
    · intro attempt hfail
      have hf0 : f attempt ≠ Except.ok true := by
        have h := hfail 0 (by omega)
        simpa using h
      have hrec := ih (r + 1) (by omega) (attempt + 1) (fun i hi => by
        have h := hfail (i + 1) (by omega)
        simpa [Nat.add_assoc, Nat.add_comm 1 i] using h)
      rw [retryGo_two]
      cases hf : f attempt with
      | error e =>
        rw [hrec]; rw [show r + 1 - 1 = r from rfl, cons_pow_map]; exact rfl
      | ok v =>
        cases v
        · rw [hrec]; rw [show r + 1 - 1 = r from rfl, cons_pow_map]; exact rfl
        · exact absurd hf hf0

lemma retryGo_congr (f g : Nat → Except Unit Bool) (b : ℚ)
    (h : ∀ i, (f i = Except.ok true ↔ g i = Except.ok true)) :
    ∀ rem attempt, retryGo f b rem attempt = retryGo g b rem attempt := by
  intro rem
  induction rem using Nat.strong_induction_on with
  | _ rem ih =>
    rcases rem with _ | (_ | r)
    · intro attempt; simp [retryGo]
    · intro attempt
      rw [retryGo_one, retryGo_one]
      by_cases hok : f attempt = Except.ok true
      · rw [hok, (h attempt).mp hok]
      · have hgok : g attempt ≠ Except.ok true := fun hg => hok ((h attempt).mpr hg)
        cases hf : f attempt with
        | error e =>
          cases hg : g attempt with
          | error e2 => rfl
          | ok v2 => cases v2 <;> first | rfl | exact absurd hg hgok
        | ok v =>
          cases v
          · cases hg : g attempt with
            | error e2 => rfl
            | ok v2 => cases v2 <;> first | rfl | exact absurd hg hgok
          · exact absurd hf hok
    · intro attempt
      rw [retryGo_two, retryGo_two, ih (r + 1) (by omega) (attempt + 1)]
      by_cases hok : f attempt = Except.ok true
      · rw [hok, (h attempt).mp hok]
      · have hgok : g attempt ≠ Except.ok true := fun hg => hok ((h attempt).mpr hg)
        cases hf : f attempt with
        | error e =>
          cases hg : g attempt with
          | error e2 => rfl
          | ok v2 => cases v2 <;> first | rfl | exact absurd hg hgok
        | ok v =>
          cases v
          · cases hg : g attempt with
            | error e2 => rfl
            | ok v2 => cases v2 <;> first | rfl | exact absurd hg hgok
          · exact absurd hf hok

/-- C2: for every operation, every max_retries at least 1 and every base delay,
retry_with_backoff (a) invokes the operation at most max_retries times,
(b) returns true at the first successful invocation, having invoked the
operation exactly i + 1 times and slept base_delay * 2 ^ j seconds after
attempt j for every earlier attempt j (so never after the final one),
(c) returns false after exactly max_retries invocations when every invocation
fails, sleeping base_delay * 2 ^ j for j up to max_retries - 2, and
(d) treats a raised exception and a returned false identically: the run is
determined solely by which invocations return true. -/
theorem retry_with_backoff_correct (f g : Nat → Except Unit Bool)
    (max_retries : Nat) (base_delay : ℚ) (_hm : 1 ≤ max_retries) :
    (retry_with_backoff f max_retries base_delay).2.1 ≤ max_retries ∧
    (∀ i, i < max_retries → (∀ j, j < i → f j ≠ Except.ok true) →
      f i = Except.ok true →
      retry_with_backoff f max_retries base_delay =
        (true, i + 1, (List.range i).map (fun j => base_delay * 2 ^ j))) ∧
    ((∀ i, i < max_retries → f i ≠ Except.ok true) →
      retry_with_backoff f max_retries base_delay =
        (false, max_retries,
          (List.range (max_retries - 1)).map (fun j => base_delay * 2 ^ j))) ∧
    ((∀ i, (f i = Except.ok true ↔ g i = Except.ok true)) →
      retry_with_backoff f max_retries base_delay =
        retry_with_backoff g max_retries base_delay) := by
  refine ⟨retryGo_invocations_le f base_delay max_retries 0, ?_, ?_, ?_⟩
  · intro i hi hfail hok
    have h := retryGo_success f base_delay max_retries 0 i hi
      (fun j hj => by simpa using hfail j hj) (by simpa using hok)
    simpa [retry_with_backoff] using h
  · intro hfail
    have h := retryGo_all_fail f base_delay max_retries 0
      (fun i hi => by simpa using hfail i hi)
    simpa [retry_with_backoff] using h
  · intro h
    exact retryGo_congr f g base_delay h max_retries 0

/-- Witness for C2: a concrete always-succeeding operation is invoked once with
no sleeps, and a concrete always-returning-false operation with max_retries 3
and base_delay 2 is invoked exactly 3 times with sleeps 2 and 4 seconds. -/
theorem retry_with_backoff_correct_witness :
    retry_with_backoff (fun _ => Except.ok true) 3 2 = (true, 1, []) ∧
    retry_with_backoff (fun _ => Except.ok false) 3 2 = (false, 3, [2, 4]) := by
  constructor
  · have h := (retry_with_backoff_correct (fun _ => Except.ok true)
      (fun _ => Except.ok true) 3 2 (by norm_num)).2.1 0 (by norm_num)
      (fun j hj => absurd hj (by omega)) rfl
    simpa using h
  · have h := (retry_with_backoff_correct (fun _ => Except.ok false)
      (fun _ => Except.ok false) 3 2 (by norm_num)).2.2.1
      (fun i _ => by simp)
    rw [h]
    norm_num [List.range_succ]

/-!
State storage (wanwatcher_docker.py lines 287-335).

The on-disk state file is modelled by its stripped text together with the
outcome of json.loads on that text: none models a JSONDecodeError, some j
the parsed JSON value.  A missing file is modelled as Option.none at the
outer level.  The outer try of get_previous_ips catches every exception, so
the model is a total function; the branch for JSON values that are neither
a string nor an object models the AttributeError raised by data.get on such
values, which the outer handler turns into the null pair.
-/

/-- A JSON value, as produced by json.loads. -/
inductive Json where
  | str (s : String)
  | num (n : Int)
  | bool (b : Bool)
  | null
  | arr (elems : List Json)
  | obj (fields : List (String × Json))

/-- Python dict.get(key) on a parsed JSON object: returns the value if the
key is present, and Python None both when the key is absent and when the
stored value is JSON null (json.loads maps null to None). -/
def jsonGet (fields : List (String × Json)) (key : String) : Option Json :=
  match fields with
  | [] => none
  | (k, v) :: rest =>
    if k = key then
      match v with
      | Json.null => none
      | _ => some v
    else jsonGet rest key

/-- The content of the state file: the stripped text and its json.loads
outcome (none models JSONDecodeError). -/
structure FileContent where
  raw : String
  parsed : Option Json

/-- The pair returned by get_previous_ips.  The Python function is annotated
Dict[str, Optional[str]], but at runtime an object field can hold any JSON
value, so the fields are modelled as optional JSON values; a loaded address
string s appears as some (Json.str s). -/
structure StoredPair where
  ipv4 : Option Json
  ipv6 : Option Json

/-- get_previous_ips (wanwatcher_docker.py lines 287-318).  A missing file
gives the null pair; otherwise the stripped content is parsed as JSON: a JSON
string is the old format converted to JSON, an object is the new format
(fields read with dict.get), any other JSON value makes data.get raise
AttributeError which the outer handler turns into the null pair, and a
JSONDecodeError means the legacy plain-text format, whose whole content is
taken as the IPv4 address. -/
def get_previous_ips : Option FileContent → StoredPair
  | none => ⟨none, none⟩
  | some c =>
    match c.parsed with
    | none => ⟨some (Json.str c.raw), none⟩
    | some (Json.str s) => ⟨some (Json.str s), none⟩
    | some (Json.obj fields) => ⟨jsonGet fields "ipv4", jsonGet fields "ipv6"⟩
    | some _ => ⟨none, none⟩

/-- Json.null for Python None, Json.str for a string, as json.dump writes an
Optional[str] value. -/
def jsonOfOption : Option String → Json
  | none => Json.null
  | some s => Json.str s

/-- save_current_ips (wanwatcher_docker.py lines 321-335): the JSON document
written to the state file, with both address fields and the last_updated
timestamp (the timestamp string is passed in, standing for
datetime.now().isoformat()). -/
def save_current_ips (ipv4 ipv6 : Option String) (now : String) : Json :=
  Json.obj [("ipv4", jsonOfOption ipv4), ("ipv6", jsonOfOption ipv6),
    ("last_updated", Json.str now)]

/-- A parsed state-file content that is neither the structured object record
nor a JSON string (the converted old format), and is not a JSONDecodeError
legacy bare string either: a JSON array, number, boolean or null.  These are
the corrupt shapes of the specification. -/
def corruptContent (c : FileContent) : Prop :=
  match c.parsed with
  | some (Json.str _) => False
  | some (Json.obj _) => False
  | none => False
  | some _ => True

/-- C3: the loader never raises (it is a total function of the file model);
a missing file loads as the null pair, every corrupt content loads as the
null pair (the same result as a missing file), and the two tolerated shapes
(structured record, legacy bare string) load without error. -/
theorem get_previous_ips_tolerant :
    get_previous_ips none = ⟨none, none⟩ ∧
    (∀ c : FileContent, corruptContent c →
      get_previous_ips (some c) = get_previous_ips none ∧
      get_previous_ips (some c) = ⟨none, none⟩) ∧
    (∀ raw fields, get_previous_ips (some ⟨raw, some (Json.obj fields)⟩) =
      ⟨jsonGet fields "ipv4", jsonGet fields "ipv6"⟩) ∧
    (∀ raw, get_previous_ips (some ⟨raw, none⟩) = ⟨some (Json.str raw), none⟩) := by
  refine ⟨rfl, ?_, fun raw fields => rfl, fun raw => rfl⟩
  intro c hc
  rcases c with ⟨raw, _ | j⟩
  · exact absurd hc not_false
  · cases j <;> first
      | exact absurd hc not_false
      | exact ⟨rfl, rfl⟩

/-- Witness for C3: a state file whose content parses as the JSON array [1]
(corrupt: neither object, nor string, nor unparseable) loads as the null
pair. -/
theorem get_previous_ips_tolerant_witness :
    get_previous_ips (some ⟨"[1]", some (Json.arr [Json.num 1])⟩) =
      ⟨none, none⟩ := by
  exact ((get_previous_ips_tolerant.2.1 ⟨"[1]", some (Json.arr [Json.num 1])⟩
    trivial).2)

/-- C8: a state file whose entire content is the bare text 203.0.113.5 (not
valid JSON, so json.loads raises and the legacy branch runs) loads with that
string as the IPv4 address and a null IPv6; and every save writes the
structured JSON object with both address fields and a timestamp — never a
bare string — and a saved record loads back as the pair that was saved. -/
theorem legacy_load_and_save_format :
    get_previous_ips (some ⟨"203.0.113.5", none⟩) =
      ⟨some (Json.str "203.0.113.5"), none⟩ ∧
    (∀ ipv4 ipv6 now, ∀ s, save_current_ips ipv4 ipv6 now ≠ Json.str s) ∧
    (∀ ipv4 ipv6 now, ∃ fields, save_current_ips ipv4 ipv6 now = Json.obj fields ∧
      jsonGet fields "last_updated" = some (Json.str now)) ∧
    (∀ ipv4 ipv6 now raw,
      get_previous_ips (some ⟨raw, some (save_current_ips ipv4 ipv6 now)⟩) =
        ⟨ipv4.map Json.str, ipv6.map Json.str⟩) := by
  refine ⟨rfl, ?_, ?_, ?_⟩
  · intro ipv4 ipv6 now s h
    simp [save_current_ips] at h
  · intro ipv4 ipv6 now
    refine ⟨_, rfl, ?_⟩
    cases ipv4 <;> cases ipv6 <;> simp [jsonGet, jsonOfOption]
  · intro ipv4 ipv6 now raw
    cases ipv4 <;> cases ipv6 <;>
      simp [get_previous_ips, save_current_ips, jsonGet, jsonOfOption]

/-- Witness for C8: the legacy bare-string load at the concrete address of
the specification, and a concrete saved record that reloads as the saved
pair. -/
theorem legacy_load_and_save_format_witness :
    get_previous_ips (some ⟨"203.0.113.5", none⟩) =
      ⟨some (Json.str "203.0.113.5"), none⟩ ∧
    get_previous_ips
        (some ⟨"x", some (save_current_ips (some "1.2.3.4") none "t")⟩) =
      ⟨some (Json.str "1.2.3.4"), none⟩ := by
  exact ⟨legacy_load_and_save_format.1,
    legacy_load_and_save_format.2.2.2 (some "1.2.3.4") none "t" "x"⟩

/-!
The multi-channel dispatcher (notifications.py lines 917-987).

A registered provider is modelled by its class name and the behaviour of its
send operation, given as the outcome of each successive invocation (as in the
retry model).  send_to_all iterates the providers in registration order,
wraps each send in retry_with_backoff with max_retries = 3 and
base_delay = 2.0, and collects the per-provider boolean into the results
mapping; the mapping is modelled as the association list in insertion order
(the Python dict is keyed by the class name).
-/

/-- A registered notification provider: its class name and its send
operation, by invocation index. -/
structure Channel where
  name : String
  send : Nat → Except Unit Bool

/-- NotificationManager.send_to_all (notifications.py lines 927-955): every
provider is tried under retry_with_backoff(send_func, max_retries=3,
base_delay=2.0) and its boolean outcome recorded under its name. -/
def send_to_all (providers : List Channel) : List (String × Bool) :=
  providers.map (fun p => (p.name, (retry_with_backoff p.send 3 2).1))

set_option linter.unusedVariables false in
/-- NotificationManager.notify_error (notifications.py lines 985-987): the
body only emits one log line; no provider send is attempted.  The result
models the pair (log lines emitted, providers attempted). -/
def notify_error (providers : List Channel) (error_msg : String)
    (server_name : String) : List String × List String :=
  (["Error notification: " ++ error_msg], [])

/-- C5: send_to_all produces one outcome per registered channel, in order,
keyed by the channel name; each channel outcome is exactly the retry outcome
of that channel own send operation, unaffected by the other channels (the
dispatch of a list decomposes channel by channel); and in the concrete
two-channel instance with A always failing and B always succeeding the
result is A false, B true, with A invoked exactly 3 times (its full retry
budget) and B exactly once. -/
theorem send_to_all_correct :
    (∀ providers : List Channel,
      (send_to_all providers).map Prod.fst = providers.map Channel.name) ∧
    (∀ (ps1 : List Channel) (p : Channel) (ps2 : List Channel),
      send_to_all (ps1 ++ p :: ps2) =
        send_to_all ps1 ++
          (p.name, (retry_with_backoff p.send 3 2).1) :: send_to_all ps2) ∧
    (send_to_all [⟨"A", fun _ => Except.ok false⟩, ⟨"B", fun _ => Except.ok true⟩] =
      [("A", false), ("B", true)] ∧
      (retry_with_backoff (fun _ => Except.ok false) 3 2).2.1 = 3 ∧
      (retry_with_backoff (fun _ => Except.ok true) 3 2).2.1 = 1) := by
  refine ⟨?_, ?_, rfl, rfl, rfl⟩
  · intro providers
    simp [send_to_all]
  · intro ps1 p ps2
    simp [send_to_all]

/-- Counterexample for C9: the claim says notify_error attempts each
registered channel exactly once, but with one registered channel the list of
attempted channels is empty — of length 0, while the channel list has
length 1 — so no channel is attempted. -/
theorem notify_error_counterexample :
    (notify_error [⟨"A", fun _ => Except.ok true⟩] "boom" "server").2.length = 0 ∧
    [(⟨"A", fun _ => Except.ok true⟩ : Channel)].length = 1 ∧
    (notify_error [⟨"A", fun _ => Except.ok true⟩] "boom" "server").2 = [] := by
  exact ⟨rfl, rfl, rfl⟩

/-- C9 as amended: notify_error attempts no channel at all — for every set of
registered channels and every message it only emits a log line and performs
no channel send, and therefore (being a total function that touches no
channel) it never raises into the calling cycle. -/
theorem notify_error_amended (providers : List Channel)
    (error_msg server_name : String) :
    notify_error providers error_msg server_name =
      (["Error notification: " ++ error_msg], []) ∧
    (notify_error providers error_msg server_name).2 = [] := by
  exact ⟨rfl, rfl⟩

/-!
The check cycle (wanwatcher_docker.py lines 505-564).

check_ip is modelled as the ordered list of observable actions of one cycle,
given the resolved current addresses, the stored previous addresses and the
registered channels.  Python truthiness governs the no-address check
(`not current_ips["ipv4"] and not current_ips["ipv6"]`): None and the empty
string are both falsy.  The first-run test uses `is None` and the change
flags use exact `!=`, as in classify_code.  The results mapping returned by
notify_all (the alias of send_to_all) is recorded in the dispatch event and
then discarded by check_ip, exactly as in the source.
-/

/-- Python truthiness of an Optional[str]: None and the empty string are
falsy. -/
def truthy : Option String → Bool
  | none => false
  | some s => s != ""

/-- One observable action of a cycle. -/
inductive CycleEvent where
  | resolve (ips : AddressPair)
  | classified (kind : ChangeKind)
  | dispatch (results : List (String × Bool))
  | save (ips : AddressPair)
  | errorNotify
deriving DecidableEq, Repr

/-- Bool discriminators used to talk about the trace. -/
def CycleEvent.isSave : CycleEvent → Bool
  | CycleEvent.save _ => true
  | _ => false

def CycleEvent.isDispatch : CycleEvent → Bool
  | CycleEvent.dispatch _ => true
  | _ => false

/-- check_ip (wanwatcher_docker.py lines 505-564) as an event trace.  If no
address was obtained, the raise lands in the outer handler, which calls
notify_error and ends the cycle.  Otherwise the previous pair is read, the
first-run flag and change flags are computed, and either the first-run
branch or the change branch sends to all channels and then saves, or the
unchanged branch does neither. -/
def check_ip_events (chans : List Channel) (current previous : AddressPair) :
    List CycleEvent :=
  if !truthy current.ipv4 && !truthy current.ipv6 then
    [CycleEvent.resolve current, CycleEvent.errorNotify]
  else
    let is_first_run := previous.ipv4.isNone && previous.ipv6.isNone
    let ipv4_changed := current.ipv4 != previous.ipv4
    let ipv6_changed := current.ipv6 != previous.ipv6
    if is_first_run then
      [CycleEvent.resolve current, CycleEvent.classified (classify_code current previous),
        CycleEvent.dispatch (send_to_all chans), CycleEvent.save current]
    else if ipv4_changed || ipv6_changed then
      [CycleEvent.resolve current, CycleEvent.classified (classify_code current previous),
        CycleEvent.dispatch (send_to_all chans), CycleEvent.save current]
    else
      [CycleEvent.resolve current, CycleEvent.classified (classify_code current previous)]

/-- Trace shape of a cycle whose resolution succeeded: resolve, classify,
and then dispatch followed by save exactly when the classified kind is not
Unchanged. -/
lemma check_ip_events_eq (chans : List Channel) (current previous : AddressPair)
    (hres : (truthy current.ipv4 || truthy current.ipv6) = true) :
    check_ip_events chans current previous =
      [CycleEvent.resolve current,
        CycleEvent.classified (classify_code current previous)] ++
      (if classify_code current previous = ChangeKind.Unchanged then []
       else [CycleEvent.dispatch (send_to_all chans), CycleEvent.save current]) := by
  unfold check_ip_events
  have hres2 : (!truthy current.ipv4 && !truthy current.ipv6) = false := by
    cases h1 : truthy current.ipv4 <;> cases h2 : truthy current.ipv6 <;>
      simp_all
  rw [hres2]
  simp only [Bool.false_eq_true, if_false]
  by_cases hfr : (previous.ipv4.isNone && previous.ipv6.isNone) = true
  · have hk : classify_code current previous = ChangeKind.FirstRun := by
      unfold classify_code
      rw [hfr]
      rfl
    rw [hk]
    simp [hfr]
  · have hfr2 : (previous.ipv4.isNone && previous.ipv6.isNone) = false := by
      simp only [Bool.not_eq_true] at hfr
      exact hfr
    rw [hfr2]
    simp only [Bool.false_eq_true, if_false]
    by_cases hch : ((current.ipv4 != previous.ipv4) || (current.ipv6 != previous.ipv6)) = true
    · have hk : classify_code current previous ≠ ChangeKind.Unchanged := by
        unfold classify_code
        rw [hfr2]
        simp only [Bool.false_eq_true, if_false]
        rw [hch]
        simp only [if_true]
        by_cases h46 : ((current.ipv4 != previous.ipv4) && (current.ipv6 != previous.ipv6)) = true <;>
          by_cases h4 : (current.ipv4 != previous.ipv4) = true <;>
            simp_all
      rw [hch, if_pos rfl, if_neg hk]
      rfl
    · have hch2 : ((current.ipv4 != previous.ipv4) || (current.ipv6 != previous.ipv6)) = false := by
        simp only [Bool.not_eq_true] at hch
        exact hch
      have hk : classify_code current previous = ChangeKind.Unchanged := by
        unfold classify_code
        rw [hfr2]
        simp only [Bool.false_eq_true, if_false]
        rw [hch2]
        rfl
      rw [hch2, hk]
      simp

/-- Counterexample for C4: a cycle in which resolution succeeded (an IPv4
address was obtained) but whose classification is Unchanged performs no save
at all, so the state is not always persisted when resolution succeeds. -/
theorem check_ip_always_saves_counterexample :
    truthy (AddressPair.mk (some "1.1.1.1") none).ipv4 = true ∧
    (check_ip_events [] ⟨some "1.1.1.1", none⟩ ⟨some "1.1.1.1", none⟩).filter
      CycleEvent.isSave = [] ∧
    check_ip_events [] ⟨some "1.1.1.1", none⟩ ⟨some "1.1.1.1", none⟩ =
      [CycleEvent.resolve ⟨some "1.1.1.1", none⟩,
        CycleEvent.classified ChangeKind.Unchanged] := by
  exact ⟨rfl, rfl, rfl⟩

/-- C4 as amended: in every cycle in which resolution succeeds, the trace is
exactly resolve, then classify, then — only when the classified kind is not
Unchanged — dispatch followed by save; so dispatch happens exactly when the
kind is not Unchanged, the save happens exactly when a dispatch happened,
the save never precedes the dispatch, and the save events are independent of
the channel set and its outcomes.  In an Unchanged cycle neither dispatch
nor save occurs. -/
theorem check_ip_cycle_order (chans : List Channel) (current previous : AddressPair)
    (hres : (truthy current.ipv4 || truthy current.ipv6) = true) :
    check_ip_events chans current previous =
      [CycleEvent.resolve current,
        CycleEvent.classified (classify_code current previous)] ++
      (if classify_code current previous = ChangeKind.Unchanged then []
       else [CycleEvent.dispatch (send_to_all chans), CycleEvent.save current]) ∧
    (∀ chans2 : List Channel,
      (check_ip_events chans current previous).filter CycleEvent.isSave =
        (check_ip_events chans2 current previous).filter CycleEvent.isSave) := by
  refine ⟨check_ip_events_eq chans current previous hres, ?_⟩
  intro chans2
  rw [check_ip_events_eq chans current previous hres,
    check_ip_events_eq chans2 current previous hres]
  by_cases hk : classify_code current previous = ChangeKind.Unchanged <;>
    simp [hk, CycleEvent.isSave]

/-- Witness for C4 as amended: a concrete changed cycle dispatches and then
saves. -/
theorem check_ip_cycle_order_witness :
    check_ip_events [] ⟨some "2.2.2.2", none⟩ ⟨some "1.1.1.1", none⟩ =
      [CycleEvent.resolve ⟨some "2.2.2.2", none⟩,
        CycleEvent.classified ChangeKind.Ipv4Changed,
        CycleEvent.dispatch [], CycleEvent.save ⟨some "2.2.2.2", none⟩] := by
  have h := (check_ip_cycle_order [] ⟨some "2.2.2.2", none⟩ ⟨some "1.1.1.1", none⟩
    (by rfl)).1
  simpa using h

/-- C10: when previous state exists (not both fields null) and both current
addresses equal the stored ones, the cycle classifies Unchanged, dispatches
nothing and performs no save at all — the persisted record, timestamp
included, is left untouched (there is no save event whose write could
refresh it). -/
theorem check_ip_unchanged_untouched (chans : List Channel)
    (current previous : AddressPair)
    (hres : (truthy current.ipv4 || truthy current.ipv6) = true)
    (hprev : ¬(previous.ipv4 = none ∧ previous.ipv6 = none))
    (h4 : current.ipv4 = previous.ipv4) (h6 : current.ipv6 = previous.ipv6) :
    check_ip_events chans current previous =
      [CycleEvent.resolve current, CycleEvent.classified ChangeKind.Unchanged] ∧
    (check_ip_events chans current previous).filter CycleEvent.isSave = [] ∧
    (check_ip_events chans current previous).filter CycleEvent.isDispatch = [] := by
  have hk : classify_code current previous = ChangeKind.Unchanged := by
    unfold classify_code
    have hfr : (previous.ipv4.isNone && previous.ipv6.isNone) = false := by
      rcases h : previous.ipv4 with _ | v4
      · rcases h2 : previous.ipv6 with _ | v6
        · exact absurd ⟨h, h2⟩ hprev
        · simp [h2]
      · simp
    rw [hfr]
    simp [h4, h6]
  have h := check_ip_events_eq chans current previous hres
  rw [hk] at h
  simp only [if_pos rfl, List.append_nil] at h
  refine ⟨h, ?_, ?_⟩ <;> rw [h] <;> rfl

/-- Witness for C10: previous state 1.1.1.1 with no IPv6, identical current
pair: the trace is resolve then classified Unchanged, with no dispatch and
no save. -/
theorem check_ip_unchanged_untouched_witness :
    check_ip_events [] ⟨some "1.1.1.1", none⟩ ⟨some "1.1.1.1", none⟩ =
      [CycleEvent.resolve ⟨some "1.1.1.1", none⟩,
        CycleEvent.classified ChangeKind.Unchanged] := by
  exact (check_ip_unchanged_untouched [] ⟨some "1.1.1.1", none⟩
    ⟨some "1.1.1.1", none⟩ (by rfl) (by simp) rfl rfl).1

/-!
Update checking (wanwatcher_docker.py lines 406-462).

The GitHub release feed is modelled by an optional release descriptor: none
stands for any fetch or JSON-parse failure (requests.get raising,
raise_for_status, response.json), which in the source lands in the outer
except and yields None.  The update-notified mark file is modelled by its
stripped content, or none when the file does not exist.  Python int() is
modelled for whitespace-stripped optionally signed decimal digit strings;
other strings fail, like the try in parse_version.
-/

/-- Split a character list at every occurrence of the separator, keeping
empty segments, like Python str.split(sep). -/
def splitOnChar (sep : Char) : List Char → List (List Char)
  | [] => [[]]
  | c :: rest =>
    if c = sep then [] :: splitOnChar sep rest
    else
      match splitOnChar sep rest with
      | [] => [[c]]
      | seg :: segs => (c :: seg) :: segs

/-- Python str.strip(): drop whitespace from both ends. -/
def pyStrip (l : List Char) : List Char :=
  ((l.dropWhile Char.isWhitespace).reverse.dropWhile Char.isWhitespace).reverse

/-- Decimal value of a digit run. -/
def digitsToNat (l : List Char) : Nat :=
  l.foldl (fun acc c => 10 * acc + (c.toNat - 48)) 0

/-- Python str.lstrip("v"): removes every leading v character. -/
def lstripV (s : String) : String :=
  String.mk (s.data.dropWhile (fun ch => ch = 'v'))

/-- Python int(s) on the strings parse_version feeds it: strips whitespace,
accepts an optional sign followed by a nonempty run of decimal digits;
anything else raises ValueError (none here). -/
def pyInt (l : List Char) : Option Int :=
  match pyStrip l with
  | [] => none
  | '-' :: rest =>
    if rest ≠ [] ∧ rest.all Char.isDigit then some (-(digitsToNat rest : Int))
    else none
  | '+' :: rest =>
    if rest ≠ [] ∧ rest.all Char.isDigit then some ((digitsToNat rest : Int))
    else none
  | l2 =>
    if l2.all Char.isDigit then some ((digitsToNat l2 : Int)) else none

/-- The parsing part of parse_version (wanwatcher_docker.py lines 406-414):
strip leading v, split on dots, convert the first three parts with int();
none models the except path (IndexError when fewer than three parts,
ValueError when a part is not an int). -/
def parseVersionTriple (version_str : String) : Option (Int × Int × Int) :=
  match splitOnChar '.' (lstripV version_str).data with
  | p0 :: p1 :: p2 :: _ =>
    match pyInt p0, pyInt p1, pyInt p2 with
    | some a, some b, some c => some (a, b, c)
    | _, _, _ => none
  | _ => none

/-- parse_version: the parsed triple, or (0, 0, 0) when parsing fails. -/
def parse_version (version_str : String) : Int × Int × Int :=
  (parseVersionTriple version_str).getD (0, 0, 0)

/-- Python tuple comparison a < b on version triples: lexicographic, major
then minor then patch. -/
def versionLt (a b : Int × Int × Int) : Prop :=
  a.1 < b.1 ∨ (a.1 = b.1 ∧ (a.2.1 < b.2.1 ∨ (a.2.1 = b.2.1 ∧ a.2.2 < b.2.2)))

instance (a b : Int × Int × Int) : Decidable (versionLt a b) := by
  unfold versionLt
  infer_instance

/-- The release descriptor fields read from the GitHub API response, each
with the default of dict.get(key, ""). -/
structure Release where
  tag_name : String
  name : String
  html_url : String
  body : String
  published_at : String

/-- The update info dictionary returned by check_for_updates. -/
structure UpdateInfo where
  current_version : String
  latest_version : String
  release_name : String
  release_url : String
  release_body : String
  published_at : String
deriving DecidableEq, Repr

/-- The running version of wanwatcher_docker.py. -/
def VERSION : String := "1.4.1"

/-- check_for_updates (wanwatcher_docker.py lines 417-462).  Disabled checks
return None; a fetch or parse failure of the feed returns None via the outer
except; otherwise the tag and the running version are compared after
lstrip("v") under parse_version, and when the feed version is newer the
update-notified mark file is consulted: if its stripped content equals the
latest version string, None (already notified); otherwise the update info
dictionary is returned. -/
def check_for_updates (enabled : Bool) (feed : Option Release)
    (mark : Option String) : Option UpdateInfo :=
  if !enabled then none
  else
    match feed with
    | none => none
    | some release_data =>
      let latest_version := lstripV release_data.tag_name
      let current_version := lstripV VERSION
      if versionLt (parse_version current_version) (parse_version latest_version) then
        match mark with
        | some notified_version =>
          if notified_version = latest_version then none
          else some ⟨current_version, latest_version, release_data.name,
            release_data.html_url, release_data.body, release_data.published_at⟩
        | none => some ⟨current_version, latest_version, release_data.name,
            release_data.html_url, release_data.body, release_data.published_at⟩
      else none

/-- C6: with update checking enabled, check_for_updates returns an update
exactly when the feed was fetched and parsed, the feed version is strictly
greater than the running version under lexicographic comparison of the
parsed triples, and the feed version does not equal the version recorded in
the mark file; in every other case — feed fetch/parse failure included — it
returns none.  Furthermore any unparsable version string degrades to
(0, 0, 0) instead of raising. -/
theorem check_for_updates_correct :
    (∀ (feed : Option Release) (mark : Option String),
      (check_for_updates true feed mark).isSome ↔
        (∃ release_data, feed = some release_data ∧
          versionLt (parse_version (lstripV VERSION))
            (parse_version (lstripV release_data.tag_name)) ∧
          mark ≠ some (lstripV release_data.tag_name))) ∧
    (∀ s, parseVersionTriple s = none → parse_version s = (0, 0, 0)) := by
  constructor
  · intro feed mark
    rcases feed with _ | rd
    · simp [check_for_updates]
    · by_cases hv : versionLt (parse_version (lstripV VERSION))
        (parse_version (lstripV rd.tag_name))
      · rcases mark with _ | notified
        · simp [check_for_updates, hv]
        · by_cases hm : notified = lstripV rd.tag_name
          · simp [check_for_updates, hv, hm]
          · simp [check_for_updates, hv, hm]
      · rcases mark with _ | notified <;> simp [check_for_updates, hv]
  · intro s h
    simp [parse_version, h]

/-- Concrete checks for C6, matching section 8 of the specification: feed
version 1.4.2 with no prior mark yields an update; the same feed version
with the mark already set to 1.4.2 yields none; a fetch failure yields none;
and a malformed feed version parses to (0, 0, 0) and yields none rather
than raising. -/
theorem check_for_updates_examples :
    (check_for_updates true (some ⟨"v1.4.2", "n", "u", "b", "p"⟩) none).isSome = true ∧
    check_for_updates true (some ⟨"v1.4.2", "n", "u", "b", "p"⟩) (some "1.4.2") = none ∧
    check_for_updates true none none = none ∧
    parse_version "garbage" = (0, 0, 0) ∧
    check_for_updates true (some ⟨"garbage", "n", "u", "b", "p"⟩) none = none := by
  exact ⟨rfl, rfl, rfl, rfl, rfl⟩

/-- Witness for C6: the characterisation applied at a concrete feed (tag
v1.4.2, newer than the running 1.4.1, no prior mark: an update is due) and
the degradation clause applied at the concrete unparsable string garbage. -/
theorem check_for_updates_correct_witness :
    (check_for_updates true (some ⟨"v1.4.2", "n", "u", "b", "p"⟩) none).isSome ∧
    parse_version "garbage" = (0, 0, 0) := by
  constructor
  · exact (check_for_updates_correct.1 (some ⟨"v1.4.2", "n", "u", "b", "p"⟩)
      none).mpr ⟨⟨"v1.4.2", "n", "u", "b", "p"⟩, rfl, by decide, by simp⟩
  · exact check_for_updates_correct.2 "garbage" rfl

/-!
IPv6 eligibility (wanwatcher_docker.py lines 175-209).

is_valid_ipv6 parses its argument with ipaddress.IPv6Address and rejects it
when any of is_loopback, is_link_local, is_multicast, is_private or
is_reserved holds; a parse failure is caught and returns False.  The
CPython ipaddress parser and its address predicates are modelled below:
the parser follows _ip_int_from_string (split on colons, at least 3 and at
most 9 parts, an optional trailing embedded IPv4 dotted quad expanded into
two hextets, a single double-colon compression filled with zero groups,
each hextet at most 4 hex digits), and the predicates follow the constant
network lists of the library (membership of the integer address value in a
network is prefix equality).  Zone identifiers (suffixes introduced by a
percent sign) are not modelled; they make the examples below neither
parseable nor eligible either way.
-/

/-- The hex digits accepted by the ipaddress hextet parser. -/
def isHexDigitChar (c : Char) : Bool :=
  c.isDigit || ('a' ≤ c && c ≤ 'f') || ('A' ≤ c && c ≤ 'F')

/-- Value of one hex digit. -/
def hexDigitVal (c : Char) : Nat :=
  if c.isDigit then c.toNat - 48
  else if 'a' ≤ c && c ≤ 'f' then c.toNat - 87
  else c.toNat - 55

/-- Value of a hex digit run. -/
def hexValue (l : List Char) : Nat :=
  l.foldl (fun acc c => 16 * acc + hexDigitVal c) 0

/-- ipaddress._parse_hextet: a nonempty run of at most 4 hex digits. -/
def parseHextet (l : List Char) : Option Nat :=
  if l = [] then none
  else if ¬ l.all isHexDigitChar then none
  else if l.length > 4 then none
  else some (hexValue l)

/-- ipaddress._parse_octet: a nonempty run of at most 3 decimal digits, no
leading zero, value at most 255. -/
def parseOctet (l : List Char) : Option Nat :=
  if l = [] then none
  else if ¬ l.all Char.isDigit then none
  else if l.length > 3 then none
  else if l.length > 1 ∧ l.head? = some '0' then none
  else if digitsToNat l > 255 then none
  else some (digitsToNat l)

/-- ipaddress IPv4 parsing of a dotted quad, as an integer. -/
def parseIPv4int (l : List Char) : Option Nat :=
  match splitOnChar '.' l with
  | [a, b, c, d] =>
    match parseOctet a, parseOctet b, parseOctet c, parseOctet d with
    | some w, some x, some y, some z =>
      some (((w * 256 + x) * 256 + y) * 256 + z)
    | _, _, _, _ => none
  | _ => none

/-- Lowercase hex digits of a number, as written by the percent-x format
used when an embedded IPv4 suffix is expanded into two hextets. -/
def natToHexChars (n : Nat) : List Char :=
  Nat.toDigits 16 n

/-- The embedded-IPv4 step of _ip_int_from_string: when the last colon part
contains a dot it must parse as an IPv4 address, and it is replaced by the
two 16-bit groups of that address. -/
def expandV4 (parts : List (List Char)) : Option (List (List Char)) :=
  match parts.getLast? with
  | none => some parts
  | some last =>
    if last.contains '.' then
      match parseIPv4int last with
      | none => none
      | some v4 =>
        some (parts.dropLast ++ [natToHexChars (v4 / 65536), natToHexChars (v4 % 65536)])
    else some parts

/-- Combine hextet groups into an integer, failing if any group is not a
valid hextet. -/
def hextetsValue (ls : List (List Char)) : Option Nat :=
  ls.foldl (fun acc l =>
    match acc, parseHextet l with
    | some a, some h => some (a * 65536 + h)
    | _, _ => none) (some 0)

/-- ipaddress._ip_int_from_string for IPv6: the 128-bit integer value of the
address text, or none on any malformed input.  Follows the library: at least
3 colon parts, embedded IPv4 expansion, at most 9 parts, at most one empty
interior part (the double-colon compression point), the leading or trailing
part may be empty only as half of a leading or trailing double colon, at
least one group must be skipped by the compression, and without compression
exactly 8 groups are required. -/
def parseIPv6 (s : String) : Option Nat :=
  let parts0 := splitOnChar ':' s.data
  if parts0.length < 3 then none
  else
    match expandV4 parts0 with
    | none => none
    | some parts =>
      if parts.length > 9 then none
      else
        match (List.range parts.length).filter (fun i =>
          decide (0 < i) && decide (i < parts.length - 1) &&
            (parts.getD i ['x'] == ([] : List Char))) with
        | [] =>
          if parts.length ≠ 8 then none
          else hextetsValue parts
        | [skip] =>
          let partsHi := if parts.headD ['x'] == ([] : List Char) then skip - 1 else skip
          if (parts.headD ['x'] == ([] : List Char)) ∧ partsHi ≠ 0 then none
          else
            let partsLo0 := parts.length - skip - 1
            let partsLo := if parts.getLastD ['x'] == ([] : List Char) then partsLo0 - 1
              else partsLo0
            if (parts.getLastD ['x'] == ([] : List Char)) ∧ partsLo ≠ 0 then none
            else if partsHi + partsLo > 7 then none
            else
              match hextetsValue (parts.take partsHi),
                hextetsValue (parts.drop (parts.length - partsLo)) with
              | some hv, some lv => some (hv * 2 ^ (16 * (8 - partsHi)) + lv)
              | _, _ => none
        | _ => none

/-- Membership of an address value in a network given by its address value
and prefix length: equality of the top len bits. -/
def inNet (a net len : Nat) : Bool :=
  a / 2 ^ (128 - len) == net / 2 ^ (128 - len)

/-- IPv6Address.is_loopback: the address ::1. -/
def ipv6IsLoopback (a : Nat) : Bool := a == 1

/-- IPv6Address.is_link_local: fe80::/10. -/
def ipv6IsLinkLocal (a : Nat) : Bool :=
  inNet a 0xfe800000000000000000000000000000 10

/-- IPv6Address.is_multicast: ff00::/8. -/
def ipv6IsMulticast (a : Nat) : Bool :=
  inNet a 0xff000000000000000000000000000000 8

/-- The _private_networks constant of the ipaddress module. -/
def privateNetworks : List (Nat × Nat) :=
  [(1, 128),
   (0, 128),
   (0x00000000000000000000ffff00000000, 96),
   (0x01000000000000000000000000000000, 64),
   (0x20010000000000000000000000000000, 23),
   (0x20010002000000000000000000000000, 48),
   (0x20010db8000000000000000000000000, 32),
   (0x20010010000000000000000000000000, 28),
   (0xfc000000000000000000000000000000, 7),
   (0xfe800000000000000000000000000000, 10)]

/-- IPv6Address.is_private: membership in any private network (this covers
the unique-local range fc00::/7). -/
def ipv6IsPrivate (a : Nat) : Bool :=
  privateNetworks.any (fun p => inNet a p.1 p.2)

/-- The _reserved_networks constant of the ipaddress module. -/
def reservedNetworks : List (Nat × Nat) :=
  [(0, 8),
   (0x01000000000000000000000000000000, 8),
   (0x02000000000000000000000000000000, 7),
   (0x04000000000000000000000000000000, 6),
   (0x08000000000000000000000000000000, 5),
   (0x10000000000000000000000000000000, 4),
   (0x40000000000000000000000000000000, 3),
   (0x60000000000000000000000000000000, 3),
   (0x80000000000000000000000000000000, 3),
   (0xa0000000000000000000000000000000, 3),
   (0xc0000000000000000000000000000000, 3),
   (0xe0000000000000000000000000000000, 4),
   (0xf0000000000000000000000000000000, 5),
   (0xf8000000000000000000000000000000, 6),
   (0xfe000000000000000000000000000000, 9)]

/-- IPv6Address.is_reserved: membership in any reserved network. -/
def ipv6IsReserved (a : Nat) : Bool :=
  reservedNetworks.any (fun p => inNet a p.1 p.2)

/-- is_valid_ipv6 (wanwatcher_docker.py lines 175-209): parse as IPv6, then
reject loopback, link-local, multicast, private and reserved addresses in
that order; a parse failure returns False through the except handler. -/
def is_valid_ipv6 (ip_str : String) : Bool :=
  match parseIPv6 ip_str with
  | none => false
  | some ip =>
    if ipv6IsLoopback ip then false
    else if ipv6IsLinkLocal ip then false
    else if ipv6IsMulticast ip then false
    else if ipv6IsPrivate ip then false
    else if ipv6IsReserved ip then false
    else true

/-- C7: is_valid_ipv6 returns false for every address that is loopback,
link-local, multicast, private/unique-local or reserved, returns false for
every malformed input string (rather than raising: it is a total Boolean
function), returns true on every other (globally routable) address, and on
the concrete examples returns false for fe80::1, ::1, ff02::1 and fd00::1
and true for 2001:4860:4860::8888. -/
theorem is_valid_ipv6_correct :
    (∀ s a, parseIPv6 s = some a →
      (ipv6IsLoopback a || ipv6IsLinkLocal a || ipv6IsMulticast a ||
        ipv6IsPrivate a || ipv6IsReserved a) = true →
      is_valid_ipv6 s = false) ∧
    (∀ s, parseIPv6 s = none → is_valid_ipv6 s = false) ∧
    (∀ s a, parseIPv6 s = some a →
      (ipv6IsLoopback a || ipv6IsLinkLocal a || ipv6IsMulticast a ||
        ipv6IsPrivate a || ipv6IsReserved a) = false →
      is_valid_ipv6 s = true) ∧
    (is_valid_ipv6 "fe80::1" = false ∧ is_valid_ipv6 "::1" = false ∧
      is_valid_ipv6 "ff02::1" = false ∧ is_valid_ipv6 "fd00::1" = false ∧
      is_valid_ipv6 "2001:4860:4860::8888" = true) := by
  refine ⟨?_, ?_, ?_, rfl, rfl, rfl, rfl, rfl⟩
  · intro s a h hbad
    unfold is_valid_ipv6
    rw [h]
    simp only [Bool.or_eq_true] at hbad
    rcases hbad with ((((h1 | h2) | h3) | h4) | h5) <;> simp_all
  · intro s h
    unfold is_valid_ipv6
    rw [h]
  · intro s a h hgood
    unfold is_valid_ipv6
    rw [h]
    simp only [Bool.or_eq_false_iff] at hgood
    obtain ⟨⟨⟨⟨h1, h2⟩, h3⟩, h4⟩, h5⟩ := hgood
    simp [h1, h2, h3, h4, h5]

/-- Witness for C7: the universally quantified parts applied at concrete
inputs — ::1 parses to the loopback value 1 and is rejected, the malformed
string 12345 fails to parse and is rejected, and 2001:4860:4860::8888
parses to a value in none of the excluded classes and is accepted. -/
theorem is_valid_ipv6_correct_witness :
    is_valid_ipv6 "::1" = false ∧ is_valid_ipv6 "12345" = false ∧
    is_valid_ipv6 "2001:4860:4860::8888" = true := by
  refine ⟨?_, ?_, ?_⟩
  · exact is_valid_ipv6_correct.1 "::1" 1 rfl rfl
  · exact is_valid_ipv6_correct.2.1 "12345" rfl
  · exact is_valid_ipv6_correct.2.2.1 "2001:4860:4860::8888"
      0x20014860486000000000000000008888 rfl rfl

end WanWatcher
